import Mathlib

/-!
Shallow embedding of the Surfbrew booking backend (`main.py`, `schemas.py`):
the availability calculator, the booking admission control and the booking
lifecycle transitions, together with theorems about their behaviour.

Modelling conventions:
- MongoDB documents become Lean structures; the document store (`db`) becomes
  an explicit `Store` value threaded through every operation.
- Python `int` becomes `Int`; timestamps (`datetime.now(timezone.utc)`) become
  `Nat` instants passed in explicitly, since `cancel_booking`/`attend_booking`
  write an `updated_at` field whose value matters for `modified_count`.
- Mongo object ids become `Nat`; a booking's absent `updated_at` field is
  `Option.none`.
- An HTTP handler raising `HTTPException` becomes a function returning the
  untouched store paired with `Except.error`; a successful handler returns the
  updated store paired with `Except.ok`.
-/

namespace Surfbrew

/-- Booking status values occurring in `main.py` / `schemas.py`:
`"pending" | "confirmed" | "cancelled" | "attended"`. -/
inductive Status where
  | pending
  | confirmed
  | cancelled
  | attended
deriving DecidableEq, Repr

/-- A document of the `booking` collection, with the fields `create_booking`
writes plus the `updated_at` field the lifecycle transitions set. -/
structure Booking where
  bid : Nat
  session_id : Nat
  user_name : String
  user_email : String
  participants : Int
  experience_level : String
  notes : Option String
  status : Status
  updated_at : Option Nat
deriving DecidableEq, Repr

/-- A document of the `session` collection, restricted to the fields the
booking core reads: `_id` and `capacity`.  `capacity` is optional because
`session_availability` reads it as `session_doc.get("capacity", 1)`. -/
structure SessionDoc where
  sid : Nat
  capacity : Option Int
deriving DecidableEq, Repr

/-- The mutable state of the `booking` collection, plus the id generator of
the document store. -/
structure Store where
  bookings : List Booking
  nextId : Nat
deriving DecidableEq, Repr

/-- Embedding of `class BookingIn(BaseModel)` from `main.py`: note that `participants` has
default `1` but no lower bound (`ge`) constraint. -/
structure BookingIn where
  session_id : Nat
  user_name : String
  user_email : String
  participants : Int
  experience_level : String
  notes : Option String
deriving DecidableEq, Repr

/-- The `HTTPException`s raised by the booking core: `404` with a detail
message, or `400` with a detail message. -/
inductive ApiError where
  | notFound (detail : String)
  | badRequest (detail : String)
deriving DecidableEq, Repr

/-- Result of `session_availability`. -/
structure Availability where
  booked : Int
  available : Int
  capacity : Int
deriving DecidableEq, Repr

/-- Reading `session_doc.get("capacity", 1)`. -/
def capVal (s : SessionDoc) : Int :=
  s.capacity.getD 1

/-- Embedding of `bookings_for_session`: all bookings whose `session_id` matches and whose
status is not `"cancelled"` (Mongo filter `{"status": {"$ne": "cancelled"}}`). -/
def bookings_for_session (store : Store) (session_id : Nat) : List Booking :=
  store.bookings.filter (fun b => b.session_id == session_id && b.status != Status.cancelled)

/-- Embedding of `session_availability`:
`booked = sum(max(1, int(b.get("participants", 1))) for b in bookings)` and
`available = max(0, int(capacity) - int(booked))`. -/
def session_availability (store : Store) (session_doc : SessionDoc) : Availability :=
  let capacity := capVal session_doc
  let bookings := bookings_for_session store session_doc.sid
  let booked := (bookings.map (fun b => max 1 b.participants)).sum
  let available := max 0 (capacity - booked)
  { booked := booked, available := available, capacity := capacity }

/-- The detail string `f"Only {avail['available']} spot(s) left"`. -/
def spots_left_msg (n : Int) : String :=
  "Only " ++ toString n ++ " spot(s) left"

/-- The read phase of `create_booking`: resolve the session
(`db["session"].find_one({"_id": ObjectId(payload.session_id)})`, 404 when it
does not resolve) and check `payload.participants > avail["available"]`
(400 with the exact remaining count). Returns the availability seen. -/
def booking_admission_check (sessions : List SessionDoc) (store : Store)
    (payload : BookingIn) : Except ApiError Availability :=
  match sessions.find? (fun s => s.sid == payload.session_id) with
  | none => .error (.notFound "Session not found")
  | some session_doc =>
      let avail := session_availability store session_doc
      if avail.available < payload.participants then
        .error (.badRequest (spots_left_msg avail.available))
      else
        .ok avail

/-- The booking record `create_booking` constructs: all payload fields plus
`"status": "confirmed"`; the store assigns `_id = nextId`. -/
def mk_booking (store : Store) (payload : BookingIn) : Booking :=
  { bid := store.nextId
    session_id := payload.session_id
    user_name := payload.user_name
    user_email := payload.user_email
    participants := payload.participants
    experience_level := payload.experience_level
    notes := payload.notes
    status := Status.confirmed
    updated_at := none }

/-- Modelled from the spec: `create_document` lives in `database.py`, which is
not part of the sources; spec §6 describes it as
`insert(collection, record) -> generated identifier`.  We model it as
appending the record to the collection and returning a fresh identifier. -/
def create_document (store : Store) (b : Booking) : Store × Nat :=
  ({ bookings := store.bookings ++ [b], nextId := store.nextId + 1 }, store.nextId)

/-- Handler `POST /api/bookings` (`create_booking`): check-then-insert.  On rejection
the store is untouched; on success the constructed booking is inserted and
`{"id": inserted_id, "status": "confirmed"}` is returned. -/
def create_booking (sessions : List SessionDoc) (store : Store) (payload : BookingIn) :
    Store × Except ApiError (Nat × Status) :=
  match booking_admission_check sessions store payload with
  | .error e => (store, .error e)
  | .ok _ =>
      let inserted := create_document store (mk_booking store payload)
      (inserted.1, .ok (inserted.2, Status.confirmed))

/-- Replace the first element satisfying `p` (Mongo `update_one` touches at
most one document). -/
def update_first (p : α → Bool) (f : α → α) : List α → List α
  | [] => []
  | x :: xs => if p x then f x :: xs else x :: update_first p f xs

/-- The patched document after
`{"$set": {"status": st, "updated_at": datetime.now(...)}}` at instant `t`. -/
def set_status (st : Status) (t : Nat) (b : Booking) : Booking :=
  { b with status := st, updated_at := some t }

/-- Mongo `update_one({"_id": booking_id}, {"$set": {"status": st, "updated_at": t}})`:
returns the new store and `modified_count`.  `modified_count` is `0` when no
document matches, and also when a document matches but the `$set` changes
nothing (it already has status `st` and `updated_at = t`). -/
def update_one_set_status (store : Store) (booking_id : Nat) (st : Status) (t : Nat) :
    Store × Nat :=
  match store.bookings.find? (fun b => b.bid == booking_id) with
  | none => (store, 0)
  | some b =>
      if b.status == st && b.updated_at == some t then
        (store, 0)
      else
        ({ store with
            bookings := update_first (fun x => x.bid == booking_id) (set_status st t) store.bookings },
          1)

/-- Handler `POST /api/admin/bookings/{booking_id}/cancel` (`cancel_booking`): set
status to `"cancelled"`, 404 `"Booking not found"` iff `modified_count == 0`. -/
def cancel_booking (store : Store) (booking_id : Nat) (t : Nat) :
    Store × Except ApiError Unit :=
  let r := update_one_set_status store booking_id Status.cancelled t
  if r.2 == 0 then
    (store, .error (.notFound "Booking not found"))
  else
    (r.1, .ok ())

/-- Handler `POST /api/admin/bookings/{booking_id}/attend` (`attend_booking`): set
status to `"attended"`, 404 `"Booking not found"` iff `modified_count == 0`. -/
def attend_booking (store : Store) (booking_id : Nat) (t : Nat) :
    Store × Except ApiError Unit :=
  let r := update_one_set_status store booking_id Status.attended t
  if r.2 == 0 then
    (store, .error (.notFound "Booking not found"))
  else
    (r.1, .ok ())

/-! ### Derived notions used by the theorems -/

/-- Sum of the raw `participants` values over the non-cancelled bookings of a
session — the quantity of the spec's overbooking invariant. -/
def raw_sum (store : Store) (session_id : Nat) : Int :=
  ((bookings_for_session store session_id).map (fun b => b.participants)).sum

/-- Sum of the positive parts `max 0 participants` over the non-cancelled
bookings of a session — the strengthened inductive invariant. -/
def pos_sum (store : Store) (session_id : Nat) : Int :=
  ((bookings_for_session store session_id).map (fun b => max 0 b.participants)).sum

/-- One sequential API call of the booking core. -/
inductive Op where
  | create (payload : BookingIn)
  | cancel (booking_id : Nat) (t : Nat)
  | attend (booking_id : Nat) (t : Nat)
deriving DecidableEq, Repr

/-- Apply one operation to the store (the error path of a handler leaves the
store untouched). -/
def applyOp (sessions : List SessionDoc) (store : Store) : Op → Store
  | .create payload => (create_booking sessions store payload).1
  | .cancel booking_id t => (cancel_booking store booking_id t).1
  | .attend booking_id t => (attend_booking store booking_id t).1

/-- Run a sequence of operations from a starting store. -/
def run (sessions : List SessionDoc) (store : Store) : List Op → Store
  | [] => store
  | op :: ops => run sessions (applyOp sessions store op) ops

/-- Predicate: `attend` is only invoked on bookings that are not currently cancelled
(create and cancel are unrestricted). -/
def safeOp (store : Store) : Op → Bool
  | .attend booking_id _ =>
      match store.bookings.find? (fun b => b.bid == booking_id) with
      | none => true
      | some b => b.status != Status.cancelled
  | _ => true

/-- Every operation of the trace is safe in the state where it executes. -/
def safeTrace (sessions : List SessionDoc) (store : Store) : List Op → Bool
  | [] => true
  | op :: ops => safeOp store op && safeTrace sessions (applyOp sessions store op) ops

/-- The racy schedule of two concurrent `create_booking` requests against the
check-then-insert implementation: both handlers run their availability check
against the same initial store (`read₁ ‖ read₂`), then each inserts if its
check passed (`write₁ ; write₂`).  Returns the final store and each request's
admission outcome. -/
def race_two_bookings (sessions : List SessionDoc) (store : Store)
    (p1 p2 : BookingIn) : Store × Bool × Bool :=
  let c1 := (booking_admission_check sessions store p1).isOk
  let c2 := (booking_admission_check sessions store p2).isOk
  let st1 := if c1 then (create_document store (mk_booking store p1)).1 else store
  let st2 := if c2 then (create_document st1 (mk_booking st1 p2)).1 else st1
  (st2, c1, c2)

/-! ### Spec-side availability formula (for the refinement claim C2) -/

/-- The availability formula exactly as the spec words it: `booked` is the sum
of `max(1, participants)` over all bookings whose `session_id` matches the
session and whose status is not cancelled; `available = max(0, capacity -
booked)`; `capacity` defaults to `1` when the session document has no
capacity field. -/
def availability_spec (store : Store) (session_doc : SessionDoc) : Availability :=
  let capacity : Int :=
    match session_doc.capacity with
    | some c => c
    | none => 1
  let booked :=
    ((store.bookings.filter
        (fun b => b.session_id == session_doc.sid && !(b.status == Status.cancelled))).map
      (fun b => max 1 b.participants)).sum
  { booked := booked
    available := max 0 (capacity - booked)
    capacity := capacity }

/-! ### Helper lemmas -/

/-- Contribution of one booking document to the floored `booked` sum of a
session. -/
def booked_contrib (sid : Nat) (b : Booking) : Int :=
  if b.session_id == sid && b.status != Status.cancelled then max 1 b.participants else 0

/-- Contribution of one booking document to the positive-part sum of a
session. -/
def pos_contrib (sid : Nat) (b : Booking) : Int :=
  if b.session_id == sid && b.status != Status.cancelled then max 0 b.participants else 0

/-- Contribution of one booking document to the raw `participants` sum of a
session. -/
def raw_contrib (sid : Nat) (b : Booking) : Int :=
  if b.session_id == sid && b.status != Status.cancelled then b.participants else 0

/-- A concrete booking document, for witnesses and counterexamples. -/
def exBooking (bid session_id : Nat) (participants : Int) (status : Status)
    (updated_at : Option Nat) : Booking :=
  { bid := bid
    session_id := session_id
    user_name := "guest"
    user_email := "guest@example.com"
    participants := participants
    experience_level := "beginner"
    notes := none
    status := status
    updated_at := updated_at }

/-- A concrete booking request, for witnesses and counterexamples. -/
def exPayload (session_id : Nat) (participants : Int) : BookingIn :=
  { session_id := session_id
    user_name := "guest"
    user_email := "guest@example.com"
    participants := participants
    experience_level := "beginner"
    notes := none }

theorem sum_map_filter {α : Type} (q : α → Bool) (g : α → Int) (l : List α) :
    ((l.filter q).map g).sum = (l.map (fun a => if q a then g a else 0)).sum := by
  induction l with
  | nil => rfl
  | cons x xs ih =>
      by_cases hx : q x <;> simp [List.filter_cons, hx, ih]

theorem booked_eq_sum_contrib (store : Store) (sd : SessionDoc) :
    (session_availability store sd).booked = (store.bookings.map (booked_contrib sd.sid)).sum := by
  simp only [session_availability, bookings_for_session]
  rw [sum_map_filter]
  rfl

theorem pos_sum_eq_sum_contrib (store : Store) (sid : Nat) :
    pos_sum store sid = (store.bookings.map (pos_contrib sid)).sum := by
  simp only [pos_sum, bookings_for_session]
  rw [sum_map_filter]
  rfl

theorem raw_sum_eq_sum_contrib (store : Store) (sid : Nat) :
    raw_sum store sid = (store.bookings.map (raw_contrib sid)).sum := by
  simp only [raw_sum, bookings_for_session]
  rw [sum_map_filter]
  rfl

theorem raw_contrib_le_pos_contrib (sid : Nat) (b : Booking) :
    raw_contrib sid b ≤ pos_contrib sid b := by
  unfold raw_contrib pos_contrib
  split <;> omega

theorem pos_contrib_le_booked_contrib (sid : Nat) (b : Booking) :
    pos_contrib sid b ≤ booked_contrib sid b := by
  unfold pos_contrib booked_contrib
  split <;> omega

theorem pos_contrib_nonneg (sid : Nat) (b : Booking) : 0 ≤ pos_contrib sid b := by
  unfold pos_contrib
  split <;> omega

theorem raw_sum_le_pos_sum (store : Store) (sid : Nat) :
    raw_sum store sid ≤ pos_sum store sid := by
  rw [raw_sum_eq_sum_contrib, pos_sum_eq_sum_contrib]
  exact List.sum_le_sum fun b _ => raw_contrib_le_pos_contrib sid b

theorem pos_sum_le_booked (store : Store) (sd : SessionDoc) :
    pos_sum store sd.sid ≤ (session_availability store sd).booked := by
  rw [pos_sum_eq_sum_contrib, booked_eq_sum_contrib]
  exact List.sum_le_sum fun b _ => pos_contrib_le_booked_contrib sd.sid b

theorem update_first_of_find?_eq_none {α : Type} (p : α → Bool) (f : α → α) (l : List α)
    (h : l.find? p = none) : update_first p f l = l := by
  induction l with
  | nil => rfl
  | cons x xs ih =>
      have hx : ¬ p x := by simpa using List.find?_eq_none.mp h x (List.mem_cons_self x xs)
      rw [List.find?_cons_of_neg _ (by simpa using hx)] at h
      simp [update_first, hx, ih h]

theorem sum_map_update_first {α : Type} (g : α → Int) (p : α → Bool) (f : α → α)
    (l : List α) (b : α) (h : l.find? p = some b) :
    ((update_first p f l).map g).sum = (l.map g).sum - g b + g (f b) := by
  induction l with
  | nil => simp at h
  | cons x xs ih =>
      by_cases hx : p x
      · rw [List.find?_cons_of_pos _ hx] at h
        injection h with h
        subst h
        simp [update_first, hx]
        ring
      · rw [List.find?_cons_of_neg _ (by simpa using hx)] at h
        simp only [update_first, hx, if_neg, Bool.false_eq_true, not_false_iff, ite_false,
          List.map_cons, List.sum_cons, ih h]
        ring

theorem find?_update_first {α : Type} (p : α → Bool) (f : α → α)
    (hf : ∀ a, p a = true → p (f a) = true) (l : List α) (b : α)
    (h : l.find? p = some b) : (update_first p f l).find? p = some (f b) := by
  induction l with
  | nil => simp at h
  | cons x xs ih =>
      by_cases hx : p x
      · rw [List.find?_cons_of_pos _ hx] at h
        injection h with h
        subst h
        simp [update_first, hx, List.find?_cons_of_pos _ (hf _ hx)]
      · rw [List.find?_cons_of_neg _ (by simpa using hx)] at h
        simp [update_first, hx, List.find?_cons_of_neg _ (by simpa using hx), ih h]

theorem update_one_set_status_of_find?_eq_none (store : Store) (booking_id : Nat)
    (st : Status) (t : Nat)
    (h : store.bookings.find? (fun b => b.bid == booking_id) = none) :
    update_one_set_status store booking_id st t = (store, 0) := by
  simp [update_one_set_status, h]

theorem update_one_set_status_noop (store : Store) (booking_id : Nat) (st : Status) (t : Nat)
    (b : Booking) (h : store.bookings.find? (fun b => b.bid == booking_id) = some b)
    (hb : b.status = st) (ht : b.updated_at = some t) :
    update_one_set_status store booking_id st t = (store, 0) := by
  simp [update_one_set_status, h, hb, ht]

theorem update_one_set_status_mod (store : Store) (booking_id : Nat) (st : Status) (t : Nat)
    (b : Booking) (h : store.bookings.find? (fun b => b.bid == booking_id) = some b)
    (hb : ¬ (b.status = st ∧ b.updated_at = some t)) :
    update_one_set_status store booking_id st t =
      ({ store with
          bookings :=
            update_first (fun x => x.bid == booking_id) (set_status st t) store.bookings },
        1) := by
  have hcond : (b.status == st && b.updated_at == some t) = false := by
    rcases Decidable.not_and_iff_or_not.mp hb with h1 | h1 <;> simp [h1]
  simp [update_one_set_status, h, hcond]

theorem cancel_booking_of_find?_eq_none (store : Store) (booking_id t : Nat)
    (h : store.bookings.find? (fun b => b.bid == booking_id) = none) :
    cancel_booking store booking_id t = (store, .error (.notFound "Booking not found")) := by
  simp [cancel_booking, update_one_set_status_of_find?_eq_none store booking_id _ t h]

theorem cancel_booking_noop (store : Store) (booking_id t : Nat) (b : Booking)
    (h : store.bookings.find? (fun b => b.bid == booking_id) = some b)
    (hb : b.status = Status.cancelled) (ht : b.updated_at = some t) :
    cancel_booking store booking_id t = (store, .error (.notFound "Booking not found")) := by
  simp [cancel_booking, update_one_set_status_noop store booking_id _ t b h hb ht]

theorem cancel_booking_mod (store : Store) (booking_id t : Nat) (b : Booking)
    (h : store.bookings.find? (fun b => b.bid == booking_id) = some b)
    (hb : ¬ (b.status = Status.cancelled ∧ b.updated_at = some t)) :
    cancel_booking store booking_id t =
      ({ store with
          bookings :=
            update_first (fun x => x.bid == booking_id) (set_status Status.cancelled t)
              store.bookings },
        .ok ()) := by
  simp [cancel_booking, update_one_set_status_mod store booking_id _ t b h hb]

theorem attend_booking_of_find?_eq_none (store : Store) (booking_id t : Nat)
    (h : store.bookings.find? (fun b => b.bid == booking_id) = none) :
    attend_booking store booking_id t = (store, .error (.notFound "Booking not found")) := by
  simp [attend_booking, update_one_set_status_of_find?_eq_none store booking_id _ t h]

theorem attend_booking_noop (store : Store) (booking_id t : Nat) (b : Booking)
    (h : store.bookings.find? (fun b => b.bid == booking_id) = some b)
    (hb : b.status = Status.attended) (ht : b.updated_at = some t) :
    attend_booking store booking_id t = (store, .error (.notFound "Booking not found")) := by
  simp [attend_booking, update_one_set_status_noop store booking_id _ t b h hb ht]

theorem attend_booking_mod (store : Store) (booking_id t : Nat) (b : Booking)
    (h : store.bookings.find? (fun b => b.bid == booking_id) = some b)
    (hb : ¬ (b.status = Status.attended ∧ b.updated_at = some t)) :
    attend_booking store booking_id t =
      ({ store with
          bookings :=
            update_first (fun x => x.bid == booking_id) (set_status Status.attended t)
              store.bookings },
        .ok ()) := by
  simp [attend_booking, update_one_set_status_mod store booking_id _ t b h hb]

theorem booked_contrib_set_cancelled (sid : Nat) (t : Nat) (b : Booking) :
    booked_contrib sid (set_status Status.cancelled t b) = 0 := by
  simp [booked_contrib, set_status]

theorem pos_contrib_set_cancelled (sid : Nat) (t : Nat) (b : Booking) :
    pos_contrib sid (set_status Status.cancelled t b) = 0 := by
  simp [pos_contrib, set_status]

theorem booked_contrib_set_attended (sid : Nat) (t : Nat) (b : Booking)
    (hb : b.status ≠ Status.cancelled) :
    booked_contrib sid (set_status Status.attended t b) = booked_contrib sid b := by
  simp [booked_contrib, set_status, hb]

theorem pos_contrib_set_attended (sid : Nat) (t : Nat) (b : Booking)
    (hb : b.status ≠ Status.cancelled) :
    pos_contrib sid (set_status Status.attended t b) = pos_contrib sid b := by
  simp [pos_contrib, set_status, hb]

theorem booked_append (store : Store) (nb : Booking) (n : Nat) (sd : SessionDoc) :
    (session_availability { bookings := store.bookings ++ [nb], nextId := n } sd).booked =
      (session_availability store sd).booked + booked_contrib sd.sid nb := by
  rw [booked_eq_sum_contrib, booked_eq_sum_contrib]
  simp

theorem pos_sum_append (store : Store) (nb : Booking) (n : Nat) (sid : Nat) :
    pos_sum { bookings := store.bookings ++ [nb], nextId := n } sid =
      pos_sum store sid + pos_contrib sid nb := by
  rw [pos_sum_eq_sum_contrib, pos_sum_eq_sum_contrib]
  simp

theorem create_booking_of_find?_eq_none (sessions : List SessionDoc) (store : Store)
    (payload : BookingIn)
    (h : sessions.find? (fun s => s.sid == payload.session_id) = none) :
    create_booking sessions store payload = (store, .error (.notFound "Session not found")) := by
  simp [create_booking, booking_admission_check, h]

theorem create_booking_reject (sessions : List SessionDoc) (store : Store)
    (payload : BookingIn) (sdoc : SessionDoc)
    (h : sessions.find? (fun s => s.sid == payload.session_id) = some sdoc)
    (hfull : (session_availability store sdoc).available < payload.participants) :
    create_booking sessions store payload =
      (store, .error (.badRequest (spots_left_msg (session_availability store sdoc).available))) := by
  simp [create_booking, booking_admission_check, h, hfull]

theorem create_booking_accept (sessions : List SessionDoc) (store : Store)
    (payload : BookingIn) (sdoc : SessionDoc)
    (h : sessions.find? (fun s => s.sid == payload.session_id) = some sdoc)
    (hok : ¬ (session_availability store sdoc).available < payload.participants) :
    create_booking sessions store payload =
      ({ bookings := store.bookings ++ [mk_booking store payload], nextId := store.nextId + 1 },
        .ok (store.nextId, Status.confirmed)) := by
  simp [create_booking, booking_admission_check, h, hok, create_document]

theorem pos_sum_cancel_le (store : Store) (booking_id t : Nat) (sid : Nat) :
    pos_sum (cancel_booking store booking_id t).1 sid ≤ pos_sum store sid := by
  cases hf : store.bookings.find? (fun b => b.bid == booking_id) with
  | none => rw [cancel_booking_of_find?_eq_none store booking_id t hf]
  | some b =>
      by_cases hb : b.status = Status.cancelled ∧ b.updated_at = some t
      · rw [cancel_booking_noop store booking_id t b hf hb.1 hb.2]
      · rw [cancel_booking_mod store booking_id t b hf hb]
        rw [pos_sum_eq_sum_contrib, pos_sum_eq_sum_contrib]
        simp only
        rw [sum_map_update_first _ _ _ _ b hf, pos_contrib_set_cancelled]
        have := pos_contrib_nonneg sid b
        omega

theorem pos_sum_attend_eq (store : Store) (booking_id t : Nat) (sid : Nat)
    (hsafe : safeOp store (.attend booking_id t) = true) :
    pos_sum (attend_booking store booking_id t).1 sid = pos_sum store sid := by
  cases hf : store.bookings.find? (fun b => b.bid == booking_id) with
  | none => rw [attend_booking_of_find?_eq_none store booking_id t hf]
  | some b =>
      have hnc : b.status ≠ Status.cancelled := by
        simp only [safeOp, hf, bne_iff_ne, ne_eq] at hsafe
        exact hsafe
      by_cases hb : b.status = Status.attended ∧ b.updated_at = some t
      · rw [attend_booking_noop store booking_id t b hf hb.1 hb.2]
      · rw [attend_booking_mod store booking_id t b hf hb]
        rw [pos_sum_eq_sum_contrib, pos_sum_eq_sum_contrib]
        simp only
        rw [sum_map_update_first _ _ _ _ b hf, pos_contrib_set_attended sid t b hnc]
        ring

theorem available_eq (store : Store) (sd : SessionDoc) :
    (session_availability store sd).available =
      max 0 (capVal sd - (session_availability store sd).booked) := rfl

theorem sid_of_find? (sessions : List SessionDoc) (sid : Nat) (sdoc : SessionDoc)
    (hfind : sessions.find? (fun s => s.sid == sid) = some sdoc) : sdoc.sid = sid := by
  have := List.find?_some hfind
  simpa using this

theorem pos_sum_create_le (sessions : List SessionDoc) (store : Store) (payload : BookingIn)
    (sid : Nat) (sdoc : SessionDoc)
    (hfind : sessions.find? (fun s => s.sid == sid) = some sdoc)
    (hinv : pos_sum store sid ≤ capVal sdoc) :
    pos_sum (create_booking sessions store payload).1 sid ≤ capVal sdoc := by
  cases hf : sessions.find? (fun s => s.sid == payload.session_id) with
  | none => rw [create_booking_of_find?_eq_none sessions store payload hf]; exact hinv
  | some sdoc2 =>
      by_cases hfull : (session_availability store sdoc2).available < payload.participants
      · rw [create_booking_reject sessions store payload sdoc2 hf hfull]; exact hinv
      · rw [create_booking_accept sessions store payload sdoc2 hf hfull]
        rw [pos_sum_append store (mk_booking store payload) (store.nextId + 1) sid]
        by_cases hsid : payload.session_id = sid
        · have hsd : sdoc2 = sdoc := by
            rw [hsid] at hf
            rw [hfind] at hf
            injection hf with hf
            exact hf.symm
          subst hsd
          have hcontrib : pos_contrib sid (mk_booking store payload) = max 0 payload.participants := by
            simp [pos_contrib, mk_booking, hsid]
          have hpb : pos_sum store sid ≤ (session_availability store sdoc2).booked := by
            have := pos_sum_le_booked store sdoc2
            rwa [sid_of_find? sessions sid sdoc2 hfind] at this
          rw [available_eq] at hfull
          rw [hcontrib]
          omega
        · have hcontrib : pos_contrib sid (mk_booking store payload) = 0 := by
            simp [pos_contrib, mk_booking, hsid]
          rw [hcontrib]
          omega

theorem pos_sum_applyOp_le (sessions : List SessionDoc) (sid : Nat) (sdoc : SessionDoc)
    (hfind : sessions.find? (fun s => s.sid == sid) = some sdoc)
    (store : Store) (op : Op) (hsafe : safeOp store op = true)
    (hinv : pos_sum store sid ≤ capVal sdoc) :
    pos_sum (applyOp sessions store op) sid ≤ capVal sdoc := by
  cases op with
  | create payload => exact pos_sum_create_le sessions store payload sid sdoc hfind hinv
  | cancel booking_id t =>
      exact le_trans (pos_sum_cancel_le store booking_id t sid) hinv
  | attend booking_id t =>
      show pos_sum (attend_booking store booking_id t).1 sid ≤ capVal sdoc
      rw [pos_sum_attend_eq store booking_id t sid hsafe]
      exact hinv

theorem pos_sum_run_le (sessions : List SessionDoc) (sid : Nat) (sdoc : SessionDoc)
    (hfind : sessions.find? (fun s => s.sid == sid) = some sdoc) :
    ∀ (ops : List Op) (store : Store), safeTrace sessions store ops = true →
      pos_sum store sid ≤ capVal sdoc → pos_sum (run sessions store ops) sid ≤ capVal sdoc := by
  intro ops
  induction ops with
  | nil => intro store _ hinv; exact hinv
  | cons op ops ih =>
      intro store hsafe hinv
      rw [safeTrace, Bool.and_eq_true] at hsafe
      rw [run]
      exact ih _ hsafe.2 (pos_sum_applyOp_le sessions sid sdoc hfind store op hsafe.1 hinv)

/-! ### Claim theorems -/

/-- C2: for every session document, the availability computation returns
`booked` equal to the sum of `max(1, participants)` over all bookings whose
`session_id` matches the session and whose status is not cancelled, and
`available` equal to `max(0, capacity - booked)` (so never negative), where
`capacity` defaults to `1` when the session document has no capacity field. -/
theorem session_availability_correct (store : Store) (sd : SessionDoc) :
    session_availability store sd = availability_spec store sd ∧
    0 ≤ (session_availability store sd).available ∧
    (sd.capacity = none → (session_availability store sd).capacity = 1) := by
  refine ⟨?_, ?_, ?_⟩
  · cases hc : sd.capacity <;>
      simp [session_availability, availability_spec, capVal, bookings_for_session, hc, bne]
  · rw [available_eq]
    exact le_max_left 0 _
  · intro h
    simp [session_availability, capVal, h]

/-- Witness for C2 at a concrete store and a session document without a
capacity field. -/
theorem session_availability_correct_witness :
    session_availability ⟨[exBooking 0 0 2 Status.confirmed none], 1⟩ ⟨0, none⟩ =
      availability_spec ⟨[exBooking 0 0 2 Status.confirmed none], 1⟩ ⟨0, none⟩ ∧
    (⟨0, none⟩ : SessionDoc).capacity = none ∧
    (session_availability ⟨[exBooking 0 0 2 Status.confirmed none], 1⟩ ⟨0, none⟩).capacity = 1 := by
  refine ⟨(session_availability_correct _ _).1, rfl,
    (session_availability_correct ⟨[exBooking 0 0 2 Status.confirmed none], 1⟩ ⟨0, none⟩).2.2 rfl⟩

/-- C9: whenever `create_booking` rejects a request — unresolvable session or
capacity exceeded — the store is unchanged; on success exactly one new booking
record (the constructed one) is appended. -/
theorem create_booking_all_or_nothing (sessions : List SessionDoc) (store : Store)
    (payload : BookingIn) :
    (create_booking sessions store payload).1 =
      if (create_booking sessions store payload).2.isOk then
        { bookings := store.bookings ++ [mk_booking store payload],
          nextId := store.nextId + 1 }
      else store := by
  cases hf : sessions.find? (fun s => s.sid == payload.session_id) with
  | none => rw [create_booking_of_find?_eq_none sessions store payload hf]; rfl
  | some sdoc =>
      by_cases hfull : (session_availability store sdoc).available < payload.participants
      · rw [create_booking_reject sessions store payload sdoc hf hfull]; rfl
      · rw [create_booking_accept sessions store payload sdoc hf hfull]; rfl

/-- C4: the check-then-insert race.  A session of capacity 2 and two
simultaneous requests of 2 participants each: under the schedule where both
availability checks read the same initial state before either insert, both
requests are admitted and the booked sum reaches 4 > 2; sequential execution
instead rejects the second request with "Only 0 spot(s) left", so the racy
outcome matches no sequential order. -/
theorem race_two_bookings_overbooks :
    (race_two_bookings [⟨0, some 2⟩] ⟨[], 0⟩ (exPayload 0 2) (exPayload 0 2)).2 = (true, true) ∧
    capVal ⟨0, some 2⟩ <
      (session_availability
        (race_two_bookings [⟨0, some 2⟩] ⟨[], 0⟩ (exPayload 0 2) (exPayload 0 2)).1
        ⟨0, some 2⟩).booked ∧
    (create_booking [⟨0, some 2⟩]
        (create_booking [⟨0, some 2⟩] ⟨[], 0⟩ (exPayload 0 2)).1 (exPayload 0 2)).2 =
      .error (.badRequest "Only 0 spot(s) left") := by
  refine ⟨rfl, by decide, rfl⟩

/-- C3: `create_booking` rejects with NotFound (`"Session not found"`, the
store untouched) when the session id does not resolve; otherwise it rejects
with a capacity error if and only if `participants > available`, and that
error carries the exact remaining count in its message; otherwise it persists
a booking with status `"confirmed"` and returns its identifier and that
status. -/
theorem create_booking_contract (sessions : List SessionDoc) (store : Store)
    (payload : BookingIn) :
    (sessions.find? (fun s => s.sid == payload.session_id) = none →
      create_booking sessions store payload = (store, .error (.notFound "Session not found"))) ∧
    (∀ sdoc, sessions.find? (fun s => s.sid == payload.session_id) = some sdoc →
      ((create_booking sessions store payload).2 =
          .error (.badRequest (spots_left_msg (session_availability store sdoc).available)) ↔
        (session_availability store sdoc).available < payload.participants) ∧
      (¬ (session_availability store sdoc).available < payload.participants →
        create_booking sessions store payload =
          ({ bookings := store.bookings ++ [mk_booking store payload],
             nextId := store.nextId + 1 },
            .ok (store.nextId, Status.confirmed)) ∧
        (mk_booking store payload).status = Status.confirmed)) := by
  refine ⟨create_booking_of_find?_eq_none sessions store payload, ?_⟩
  intro sdoc h
  constructor
  · constructor
    · intro herr
      by_contra hok
      rw [create_booking_accept sessions store payload sdoc h hok] at herr
      simp at herr
    · intro hfull
      rw [create_booking_reject sessions store payload sdoc h hfull]
  · intro hok
    exact ⟨create_booking_accept sessions store payload sdoc h hok, rfl⟩

/-- Witness for C3: a successful admission, a capacity rejection with the
exact remaining count, and a NotFound rejection, all at concrete inputs. -/
theorem create_booking_contract_witness :
    create_booking [⟨0, some 2⟩] ⟨[], 0⟩ (exPayload 0 1) =
      ({ bookings := [mk_booking ⟨[], 0⟩ (exPayload 0 1)], nextId := 1 },
        .ok (0, Status.confirmed)) ∧
    (create_booking [⟨0, some 2⟩] ⟨[], 0⟩ (exPayload 0 3)).2 =
      .error (.badRequest "Only 2 spot(s) left") ∧
    create_booking [⟨0, some 2⟩] ⟨[], 0⟩ (exPayload 7 1) =
      (⟨[], 0⟩, .error (.notFound "Session not found")) := by
  refine ⟨?_, ?_, (create_booking_contract [⟨0, some 2⟩] ⟨[], 0⟩ (exPayload 7 1)).1 rfl⟩
  · have h :=
      ((create_booking_contract [⟨0, some 2⟩] ⟨[], 0⟩ (exPayload 0 1)).2 ⟨0, some 2⟩ rfl).2
        (by decide)
    simpa using h.1
  · have h :=
      ((create_booking_contract [⟨0, some 2⟩] ⟨[], 0⟩ (exPayload 0 3)).2 ⟨0, some 2⟩ rfl).1.mpr
        (by decide)
    simpa using h

/-- C10: the public booking endpoint does not validate `participants ≥ 1`:
for every resolvable session and every `participants ≤ 0`, the admission
check passes and a booking with that non-positive participants value is
persisted with status `"confirmed"`; in particular, when `available = 0` the
floored booked sum strictly exceeds capacity after the insert. -/
theorem create_booking_nonpositive_participants (sessions : List SessionDoc) (store : Store)
    (payload : BookingIn) (sdoc : SessionDoc)
    (hfind : sessions.find? (fun s => s.sid == payload.session_id) = some sdoc)
    (hp : payload.participants ≤ 0) :
    create_booking sessions store payload =
      ({ bookings := store.bookings ++ [mk_booking store payload],
         nextId := store.nextId + 1 },
        .ok (store.nextId, Status.confirmed)) ∧
    (mk_booking store payload).status = Status.confirmed ∧
    (mk_booking store payload).participants = payload.participants ∧
    ((session_availability store sdoc).available = 0 →
      capVal sdoc < (session_availability (create_booking sessions store payload).1 sdoc).booked) := by
  have hok : ¬ (session_availability store sdoc).available < payload.participants := by
    rw [available_eq]
    omega
  refine ⟨create_booking_accept sessions store payload sdoc hfind hok, rfl, rfl, ?_⟩
  intro hzero
  rw [create_booking_accept sessions store payload sdoc hfind hok]
  simp only
  rw [booked_append store (mk_booking store payload) (store.nextId + 1) sdoc]
  have hsd : sdoc.sid = payload.session_id := by
    have := List.find?_some hfind
    simpa using this
  have hcontrib : booked_contrib sdoc.sid (mk_booking store payload) = max 1 payload.participants := by
    simp [booked_contrib, mk_booking, hsd]
  rw [hcontrib]
  rw [available_eq] at hzero
  omega

/-- Witness for C10: with capacity 1 and one confirmed single-participant
booking, `available = 0` and yet a `participants = 0` request is admitted,
driving the floored booked sum to 2 > 1. -/
theorem create_booking_nonpositive_participants_witness :
    ([⟨0, some 1⟩] : List SessionDoc).find?
        (fun s => s.sid == (exPayload 0 0).session_id) = some ⟨0, some 1⟩ ∧
    (exPayload 0 0).participants ≤ 0 ∧
    (session_availability ⟨[exBooking 0 0 1 Status.confirmed none], 1⟩ ⟨0, some 1⟩).available = 0 ∧
    (create_booking [⟨0, some 1⟩] ⟨[exBooking 0 0 1 Status.confirmed none], 1⟩
        (exPayload 0 0)).2 = .ok (1, Status.confirmed) ∧
    capVal ⟨0, some 1⟩ <
      (session_availability
        (create_booking [⟨0, some 1⟩] ⟨[exBooking 0 0 1 Status.confirmed none], 1⟩
          (exPayload 0 0)).1 ⟨0, some 1⟩).booked := by
  have h := create_booking_nonpositive_participants [⟨0, some 1⟩]
    ⟨[exBooking 0 0 1 Status.confirmed none], 1⟩ (exPayload 0 0) ⟨0, some 1⟩ rfl (by decide)
  refine ⟨rfl, by decide, by decide, ?_, h.2.2.2 (by decide)⟩
  rw [h.1]

/-- C5 (amended): `cancel_booking` fails with NotFound when the booking id
does not resolve, and also when the Mongo update modifies nothing — the
booking is already cancelled and carries `updated_at` equal to the new
timestamp; in every other case (including an already-cancelled booking seen
at a different timestamp) it succeeds and sets the status to cancelled.
Consequently cancelling twice succeeds both times whenever the second call
runs at a different instant, instead of failing the second time. -/
theorem cancel_booking_contract (store : Store) (booking_id t : Nat) :
    (store.bookings.find? (fun b => b.bid == booking_id) = none →
      cancel_booking store booking_id t = (store, .error (.notFound "Booking not found"))) ∧
    (∀ b, store.bookings.find? (fun b => b.bid == booking_id) = some b →
      ((b.status = Status.cancelled ∧ b.updated_at = some t) →
        cancel_booking store booking_id t = (store, .error (.notFound "Booking not found"))) ∧
      (¬ (b.status = Status.cancelled ∧ b.updated_at = some t) →
        (cancel_booking store booking_id t).2 = .ok () ∧
        (cancel_booking store booking_id t).1.bookings.find? (fun x => x.bid == booking_id) =
          some (set_status Status.cancelled t b) ∧
        (∀ t2, t2 ≠ t →
          (cancel_booking (cancel_booking store booking_id t).1 booking_id t2).2 = .ok ()))) := by
  refine ⟨cancel_booking_of_find?_eq_none store booking_id t, ?_⟩
  intro b h
  refine ⟨fun hb => cancel_booking_noop store booking_id t b h hb.1 hb.2, ?_⟩
  intro hb
  have hfu : (cancel_booking store booking_id t).1.bookings.find?
      (fun x => x.bid == booking_id) = some (set_status Status.cancelled t b) := by
    rw [cancel_booking_mod store booking_id t b h hb]
    exact find?_update_first _ _ (fun a ha => by simpa [set_status] using ha) _ b h
  refine ⟨by rw [cancel_booking_mod store booking_id t b h hb], hfu, ?_⟩
  intro t2 ht2
  have hb2 : ¬ ((set_status Status.cancelled t b).status = Status.cancelled ∧
      (set_status Status.cancelled t b).updated_at = some t2) := by
    simp [set_status]
    omega
  rw [cancel_booking_mod (cancel_booking store booking_id t).1 booking_id t2
    (set_status Status.cancelled t b) hfu hb2]

/-- Witness for C5: a first cancel of a confirmed booking succeeds, and the
second cancel, issued at a later instant, succeeds as well. -/
theorem cancel_booking_contract_witness :
    (cancel_booking ⟨[exBooking 0 0 1 Status.confirmed none], 1⟩ 0 5).2 = .ok () ∧
    (cancel_booking (cancel_booking ⟨[exBooking 0 0 1 Status.confirmed none], 1⟩ 0 5).1
        0 6).2 = .ok () := by
  have h :=
    ((cancel_booking_contract ⟨[exBooking 0 0 1 Status.confirmed none], 1⟩ 0 5).2
      (exBooking 0 0 1 Status.confirmed none) rfl).2 (by decide)
  exact ⟨h.1, h.2.2 6 (by decide)⟩

/-- Counterexample for C5: a booking that is already cancelled — so the id
does not resolve to a currently-non-cancelled booking — is cancelled again at
a later instant, and the call succeeds instead of failing with NotFound. -/
theorem cancel_booking_cex :
    (⟨[exBooking 0 0 1 Status.cancelled (some 5)], 1⟩ : Store).bookings.find?
        (fun b => b.bid == 0) = some (exBooking 0 0 1 Status.cancelled (some 5)) ∧
    (exBooking 0 0 1 Status.cancelled (some 5)).status = Status.cancelled ∧
    (cancel_booking ⟨[exBooking 0 0 1 Status.cancelled (some 5)], 1⟩ 0 6).2 = .ok () :=
  ⟨rfl, rfl, rfl⟩

/-- C6 (amended): `attend_booking` transitions any existing booking to
attended regardless of its current state — cancelled and attended bookings
included; it fails with NotFound only when the id does not resolve or when
the update modifies nothing (already attended with `updated_at` equal to the
new timestamp), not whenever the booking is terminal. -/
theorem attend_booking_contract (store : Store) (booking_id t : Nat) :
    (store.bookings.find? (fun b => b.bid == booking_id) = none →
      attend_booking store booking_id t = (store, .error (.notFound "Booking not found"))) ∧
    (∀ b, store.bookings.find? (fun b => b.bid == booking_id) = some b →
      ((b.status = Status.attended ∧ b.updated_at = some t) →
        attend_booking store booking_id t = (store, .error (.notFound "Booking not found"))) ∧
      (¬ (b.status = Status.attended ∧ b.updated_at = some t) →
        (attend_booking store booking_id t).2 = .ok () ∧
        (attend_booking store booking_id t).1.bookings.find? (fun x => x.bid == booking_id) =
          some (set_status Status.attended t b))) := by
  refine ⟨attend_booking_of_find?_eq_none store booking_id t, ?_⟩
  intro b h
  refine ⟨fun hb => attend_booking_noop store booking_id t b h hb.1 hb.2, ?_⟩
  intro hb
  refine ⟨by rw [attend_booking_mod store booking_id t b h hb], ?_⟩
  rw [attend_booking_mod store booking_id t b h hb]
  exact find?_update_first _ _ (fun a ha => by simpa [set_status] using ha) _ b h

/-- Witness for C6: attending a confirmed booking succeeds and stores status
attended. -/
theorem attend_booking_contract_witness :
    (attend_booking ⟨[exBooking 0 0 1 Status.confirmed none], 1⟩ 0 4).2 = .ok () ∧
    (attend_booking ⟨[exBooking 0 0 1 Status.confirmed none], 1⟩ 0 4).1.bookings.find?
        (fun x => x.bid == 0) = some (set_status Status.attended 4 (exBooking 0 0 1 Status.confirmed none)) := by
  exact ((attend_booking_contract ⟨[exBooking 0 0 1 Status.confirmed none], 1⟩ 0 4).2
    (exBooking 0 0 1 Status.confirmed none) rfl).2 (by decide)

/-- Counterexample for C6: a cancelled booking is terminal, yet
`attend_booking` succeeds on it and rewrites its status to attended, instead
of failing with NotFound. -/
theorem attend_booking_cex :
    (exBooking 0 0 1 Status.cancelled (some 5)).status = Status.cancelled ∧
    (attend_booking ⟨[exBooking 0 0 1 Status.cancelled (some 5)], 1⟩ 0 6).2 = .ok () ∧
    (attend_booking ⟨[exBooking 0 0 1 Status.cancelled (some 5)], 1⟩ 0 6).1.bookings.find?
        (fun x => x.bid == 0) =
      some (exBooking 0 0 1 Status.attended (some 6)) :=
  ⟨rfl, rfl, rfl⟩

/-- C7 (amended): cancelling an existing non-cancelled booking of a session
increases the session's computed `available` by `max(1, participants)` of
that booking, provided the pre-cancel booked sum does not exceed the
capacity (without that proviso the `max(0, ...)` clamp can absorb part or
all of the freed capacity). -/
theorem cancel_booking_frees_capacity (store : Store) (sd : SessionDoc)
    (booking_id t : Nat) (b : Booking)
    (hfind : store.bookings.find? (fun x => x.bid == booking_id) = some b)
    (hsid : b.session_id = sd.sid)
    (hst : b.status ≠ Status.cancelled)
    (hcap : (session_availability store sd).booked ≤ capVal sd) :
    (cancel_booking store booking_id t).2 = .ok () ∧
    (session_availability (cancel_booking store booking_id t).1 sd).available =
      (session_availability store sd).available + max 1 b.participants := by
  have hb : ¬ (b.status = Status.cancelled ∧ b.updated_at = some t) := fun h => hst h.1
  rw [cancel_booking_mod store booking_id t b hfind hb]
  refine ⟨rfl, ?_⟩
  have hbooked :
      (session_availability
        ({ store with
            bookings := update_first (fun x => x.bid == booking_id)
              (set_status Status.cancelled t) store.bookings }) sd).booked =
      (session_availability store sd).booked - max 1 b.participants := by
    rw [booked_eq_sum_contrib, booked_eq_sum_contrib]
    simp only
    rw [sum_map_update_first _ _ _ _ b hfind, booked_contrib_set_cancelled]
    have hc : booked_contrib sd.sid b = max 1 b.participants := by
      simp [booked_contrib, hsid, hst]
    rw [hc]
    ring
  rw [available_eq, available_eq, hbooked]
  omega

/-- Witness for C7: cancelling the single confirmed one-participant booking
of a capacity-2 session raises `available` from 1 to 2. -/
theorem cancel_booking_frees_capacity_witness :
    (⟨[exBooking 0 0 1 Status.confirmed none], 1⟩ : Store).bookings.find?
        (fun x => x.bid == 0) = some (exBooking 0 0 1 Status.confirmed none) ∧
    (exBooking 0 0 1 Status.confirmed none).session_id = (⟨0, some 2⟩ : SessionDoc).sid ∧
    (session_availability ⟨[exBooking 0 0 1 Status.confirmed none], 1⟩ ⟨0, some 2⟩).booked ≤
      capVal ⟨0, some 2⟩ ∧
    (cancel_booking ⟨[exBooking 0 0 1 Status.confirmed none], 1⟩ 0 7).2 = .ok () ∧
    (session_availability (cancel_booking ⟨[exBooking 0 0 1 Status.confirmed none], 1⟩ 0 7).1
        ⟨0, some 2⟩).available =
      (session_availability ⟨[exBooking 0 0 1 Status.confirmed none], 1⟩ ⟨0, some 2⟩).available +
        max 1 (exBooking 0 0 1 Status.confirmed none).participants := by
  have h := cancel_booking_frees_capacity ⟨[exBooking 0 0 1 Status.confirmed none], 1⟩
    ⟨0, some 2⟩ 0 7 (exBooking 0 0 1 Status.confirmed none) rfl rfl (by decide) (by decide)
  exact ⟨rfl, rfl, by decide, h.1, h.2⟩

/-- Counterexample for C7: with capacity 1 and two confirmed bookings (one of
1 participant, one of 0 participants — a state the endpoint itself admits),
cancelling the 0-participant booking succeeds but leaves `available` at 0,
not `available + max(1, 0) = 1`: the claim as stated is false. -/
theorem cancel_booking_frees_capacity_cex :
    (⟨[exBooking 0 0 1 Status.confirmed none, exBooking 1 0 0 Status.confirmed none], 2⟩ :
        Store).bookings.find? (fun x => x.bid == 1) =
      some (exBooking 1 0 0 Status.confirmed none) ∧
    (exBooking 1 0 0 Status.confirmed none).status ≠ Status.cancelled ∧
    (cancel_booking
        ⟨[exBooking 0 0 1 Status.confirmed none, exBooking 1 0 0 Status.confirmed none], 2⟩
        1 0).2 = .ok () ∧
    ¬ ((session_availability
          (cancel_booking
            ⟨[exBooking 0 0 1 Status.confirmed none, exBooking 1 0 0 Status.confirmed none], 2⟩
            1 0).1 ⟨0, some 1⟩).available =
        (session_availability
          ⟨[exBooking 0 0 1 Status.confirmed none, exBooking 1 0 0 Status.confirmed none], 2⟩
          ⟨0, some 1⟩).available +
          max 1 (exBooking 1 0 0 Status.confirmed none).participants) := by
  refine ⟨rfl, by decide, rfl, by decide⟩

/-- C8 (amended): attending a booking that is not cancelled leaves the
session's booked sum and `available` unchanged (whether the update modifies
the document or is the no-op error case); attending a cancelled booking —
which the code also permits — does change them, so the claim needs the
non-cancelled restriction. -/
theorem attend_booking_preserves_availability (store : Store) (sd : SessionDoc)
    (booking_id t : Nat) (b : Booking)
    (hfind : store.bookings.find? (fun x => x.bid == booking_id) = some b)
    (hst : b.status ≠ Status.cancelled) :
    (session_availability (attend_booking store booking_id t).1 sd).booked =
      (session_availability store sd).booked ∧
    (session_availability (attend_booking store booking_id t).1 sd).available =
      (session_availability store sd).available := by
  by_cases hb : b.status = Status.attended ∧ b.updated_at = some t
  · rw [attend_booking_noop store booking_id t b hfind hb.1 hb.2]
    exact ⟨rfl, rfl⟩
  · rw [attend_booking_mod store booking_id t b hfind hb]
    have hbooked :
        (session_availability
          ({ store with
              bookings := update_first (fun x => x.bid == booking_id)
                (set_status Status.attended t) store.bookings }) sd).booked =
        (session_availability store sd).booked := by
      rw [booked_eq_sum_contrib, booked_eq_sum_contrib]
      simp only
      rw [sum_map_update_first _ _ _ _ b hfind, booked_contrib_set_attended sd.sid t b hst]
      ring
    refine ⟨hbooked, ?_⟩
    rw [available_eq, available_eq, hbooked]

/-- Witness for C8: attending the single confirmed booking of a session
leaves `booked` and `available` unchanged. -/
theorem attend_booking_preserves_availability_witness :
    (⟨[exBooking 0 0 1 Status.confirmed none], 1⟩ : Store).bookings.find?
        (fun x => x.bid == 0) = some (exBooking 0 0 1 Status.confirmed none) ∧
    (exBooking 0 0 1 Status.confirmed none).status ≠ Status.cancelled ∧
    (session_availability (attend_booking ⟨[exBooking 0 0 1 Status.confirmed none], 1⟩ 0 9).1
        ⟨0, some 2⟩).booked =
      (session_availability ⟨[exBooking 0 0 1 Status.confirmed none], 1⟩ ⟨0, some 2⟩).booked ∧
    (session_availability (attend_booking ⟨[exBooking 0 0 1 Status.confirmed none], 1⟩ 0 9).1
        ⟨0, some 2⟩).available =
      (session_availability ⟨[exBooking 0 0 1 Status.confirmed none], 1⟩ ⟨0, some 2⟩).available := by
  have h := attend_booking_preserves_availability ⟨[exBooking 0 0 1 Status.confirmed none], 1⟩
    ⟨0, some 2⟩ 0 9 (exBooking 0 0 1 Status.confirmed none) rfl (by decide)
  exact ⟨rfl, by decide, h.1, h.2⟩

/-- Counterexample for C8: attending a cancelled booking succeeds and changes
the booked sum from 0 to 1 (dropping `available` from 1 to 0), so attending
does not in general leave availability unchanged. -/
theorem attend_booking_preserves_availability_cex :
    (attend_booking ⟨[exBooking 0 0 1 Status.cancelled (some 0)], 1⟩ 0 3).2 = .ok () ∧
    ¬ ((session_availability
          (attend_booking ⟨[exBooking 0 0 1 Status.cancelled (some 0)], 1⟩ 0 3).1
          ⟨0, some 1⟩).booked =
        (session_availability ⟨[exBooking 0 0 1 Status.cancelled (some 0)], 1⟩
          ⟨0, some 1⟩).booked) := by
  refine ⟨rfl, by decide⟩

/-- C1 (amended): for a session `S`, under sequential execution of any
sequence of `create_booking`, `cancel_booking` and `attend_booking`
operations in which `attend_booking` is only applied to bookings that are
not currently cancelled, starting from a state where the sum of
`max(0, participants)` over `S`'s non-cancelled bookings is at most
`S.capacity` (the empty state in particular), the sum of `participants`
over `S`'s non-cancelled bookings never exceeds `S.capacity`. -/
theorem booking_invariant_sequential (sessions : List SessionDoc) (store : Store)
    (ops : List Op) (sid : Nat) (sdoc : SessionDoc)
    (hfind : sessions.find? (fun s => s.sid == sid) = some sdoc)
    (hstart : pos_sum store sid ≤ capVal sdoc)
    (hsafe : safeTrace sessions store ops = true) :
    raw_sum (run sessions store ops) sid ≤ capVal sdoc :=
  le_trans (raw_sum_le_pos_sum _ _)
    (pos_sum_run_le sessions sid sdoc hfind ops store hsafe hstart)

/-- Witness for C1 at a concrete safe trace: create, attend, cancel on a
capacity-2 session starting from the empty store. -/
theorem booking_invariant_sequential_witness :
    ([⟨0, some 2⟩] : List SessionDoc).find? (fun s => s.sid == 0) = some ⟨0, some 2⟩ ∧
    pos_sum ⟨[], 0⟩ 0 ≤ capVal ⟨0, some 2⟩ ∧
    safeTrace [⟨0, some 2⟩] ⟨[], 0⟩
      [Op.create (exPayload 0 1), Op.attend 0 5, Op.cancel 0 6] = true ∧
    raw_sum (run [⟨0, some 2⟩] ⟨[], 0⟩
      [Op.create (exPayload 0 1), Op.attend 0 5, Op.cancel 0 6]) 0 ≤ capVal ⟨0, some 2⟩ := by
  refine ⟨rfl, by decide, rfl, ?_⟩
  exact booking_invariant_sequential [⟨0, some 2⟩] ⟨[], 0⟩
    [Op.create (exPayload 0 1), Op.attend 0 5, Op.cancel 0 6] 0 ⟨0, some 2⟩
    rfl (by decide) rfl

/-- Counterexample for C1 as stated.  Two sequential executions violate the
claimed invariant on a capacity-1 session: (a) starting from the empty store,
the trace create (1 participant), cancel it, create (1 participant), attend
the cancelled one resurrects the cancelled booking and drives the
participants sum to 2 > 1; (b) starting from a store holding confirmed
bookings of 2 and -1 participants — a state whose participants sum is 1 ≤ 1,
so it satisfies the invariant — a single cancel of the -1-participant
booking raises the sum to 2 > 1. -/
theorem booking_invariant_sequential_cex :
    raw_sum (⟨[], 0⟩ : Store) 0 ≤ capVal ⟨0, some 1⟩ ∧
    capVal ⟨0, some 1⟩ <
      raw_sum (run [⟨0, some 1⟩] ⟨[], 0⟩
        [Op.create (exPayload 0 1), Op.cancel 0 1, Op.create (exPayload 0 1), Op.attend 0 2]) 0 ∧
    raw_sum
        (⟨[exBooking 0 0 2 Status.confirmed none, exBooking 1 0 (-1) Status.confirmed none], 2⟩ :
          Store) 0 ≤ capVal ⟨0, some 1⟩ ∧
    capVal ⟨0, some 1⟩ <
      raw_sum
        (run [⟨0, some 1⟩]
          ⟨[exBooking 0 0 2 Status.confirmed none, exBooking 1 0 (-1) Status.confirmed none], 2⟩
          [Op.cancel 1 3]) 0 := by
  refine ⟨by decide, by decide, by decide, by decide⟩

end Surfbrew
